import Mathlib

/-!
# Launcher (`src/launcher.c`)

A shallow embedding of `main` of `launcher.c` as a state-passing function.

* The values returned by the operating system (`fork`, `setsid`, `open`,
  `dup2`, `close`, `execl`) are inputs, collected in `Sys`.
* The process state `Proc` holds the file-descriptor table, the file system,
  the command line, the environment and the log of calls issued so far.
* The constants of `<fcntl.h>` that `main` uses are not fixed by the source;
  they are the parameter `Fcntl`.
-/

namespace Launcher

/-! ## Constants of the system headers -/

/-- The open-flag constants of `<fcntl.h>`, whose numeric values depend on
the platform. -/
structure Fcntl where
  O_ACCMODE : Nat
  O_WRONLY : Nat
  O_RDWR : Nat
  O_CREAT : Nat
  O_TRUNC : Nat
  O_APPEND : Nat
  deriving DecidableEq, Repr

/-- What POSIX requires of the constants, as far as `main` relies on it: the
file-creation and file-status flags are non-zero, lie outside the access-mode
mask, `O_RDWR` lies inside it, and `O_APPEND` shares no bit with the flags
`main` passes. -/
def Fcntl.wf (K : Fcntl) : Prop :=
  K.O_CREAT ≠ 0 ∧ K.O_TRUNC ≠ 0 ∧ K.O_APPEND ≠ 0 ∧
  K.O_RDWR &&& K.O_ACCMODE = K.O_RDWR ∧
  K.O_CREAT &&& K.O_ACCMODE = 0 ∧
  K.O_TRUNC &&& K.O_ACCMODE = 0 ∧
  K.O_RDWR &&& K.O_APPEND = 0 ∧
  K.O_CREAT &&& K.O_APPEND = 0 ∧
  K.O_TRUNC &&& K.O_APPEND = 0

instance (K : Fcntl) : Decidable K.wf := by
  unfold Fcntl.wf; infer_instance

/-- The values of `<fcntl.h>` on Linux (x86-64). -/
def fcntl_linux : Fcntl :=
  { O_ACCMODE := 0o3, O_WRONLY := 0o1, O_RDWR := 0o2,
    O_CREAT := 0o100, O_TRUNC := 0o1000, O_APPEND := 0o2000 }

/-- The values of `<fcntl.h>` on macOS. -/
def fcntl_darwin : Fcntl :=
  { O_ACCMODE := 0x3, O_WRONLY := 0x1, O_RDWR := 0x2,
    O_CREAT := 0x200, O_TRUNC := 0x400, O_APPEND := 0x8 }

/-- The descriptor of standard output, `<unistd.h>`. -/
def STDOUT_FILENO : Int := 1

/-- The descriptor of standard error, `<unistd.h>`. -/
def STDERR_FILENO : Int := 2

/-! ## Process state -/

/-- An OS call together with the arguments `main` passed. -/
inductive Call where
  | fork
  | setsid
  | open_ (path : String) (flags : Nat) (mode : Nat)
  | dup2 (oldfd newfd : Int)
  | close (fd : Int)
  | execl (path : String) (args : List String)
  deriving DecidableEq, Repr

/-- What a file descriptor refers to: the file and whether writes append. -/
structure OpenFile where
  path : String
  append : Bool
  deriving DecidableEq, Repr

/-- The state of the process and of the part of the system it acts on. -/
structure Proc where
  /-- The file-descriptor table: `none` for a closed descriptor. -/
  fds : Int → Option OpenFile
  /-- The file system: `none` for an absent file, else the content. -/
  fs : String → Option (List Nat)
  /-- The command line the program was started with. -/
  argv : List String
  /-- The environment the program was started with. -/
  environ : List (String × String)
  /-- The calls issued so far, oldest first. -/
  calls : List Call

/-- The values the operating system returns to the calls of `main`. -/
structure Sys where
  fork : Int
  setsid : Int
  open_ : Int
  dup2_out : Int
  dup2_err : Int
  close : Int
  /-- `none`: the image was replaced and `execl` did not return. -/
  execl : Option Int

/-- How a run of `main` ends. -/
inductive Outcome where
  /-- The body of `main` returned this status. -/
  | exited (status : Int)
  /-- The function `execl` succeeded: the process now runs the new image. -/
  | replaced
  deriving DecidableEq, Repr

/-- The table `t` with descriptor `fd` set to `v`. -/
def setFd (t : Int → Option OpenFile) (fd : Int) (v : Option OpenFile) :
    Int → Option OpenFile :=
  fun k => if k = fd then v else t k

/-- The file system `fs` with `path` set to `v`. -/
def setFile (fs : String → Option (List Nat)) (path : String)
    (v : Option (List Nat)) : String → Option (List Nat) :=
  fun k => if k = path then v else fs k

/-- The state `p` with call `c` appended to its log. -/
def Proc.log (p : Proc) (c : Call) : Proc :=
  { p with calls := p.calls ++ [c] }

/-! ## The OS calls

Each takes the value the system returns (`r`) and gives it back with the new
state. A negative value is a failure and leaves the state as it was. -/

/-- The call `fork()`: in the process modelled nothing changes but the log. -/
def sys_fork (r : Int) (p : Proc) : Int × Proc :=
  (r, p.log Call.fork)

/-- The call `setsid()`: it touches neither descriptors nor files. -/
def sys_setsid (r : Int) (p : Proc) : Int × Proc :=
  (r, p.log Call.setsid)

/-- Whether `flags` ask for write access. -/
def writable (K : Fcntl) (flags : Nat) : Bool :=
  flags &&& K.O_ACCMODE == K.O_WRONLY || flags &&& K.O_ACCMODE == K.O_RDWR

/-- The content of the file after a successful `open` with `flags`: an absent
file is created empty under `O_CREAT`, a file opened for writing is emptied
under `O_TRUNC`. -/
def openedContent (K : Fcntl) (flags : Nat) (old : Option (List Nat)) :
    Option (List Nat) :=
  match old with
  | none => if flags &&& K.O_CREAT ≠ 0 then some [] else none
  | some c => if flags &&& K.O_TRUNC ≠ 0 ∧ writable K flags then some [] else some c

/-- The call `open(path, flags, mode)`: on success (`0 ≤ r`) descriptor `r`
refers to the file. -/
def sys_open (K : Fcntl) (r : Int) (path : String) (flags mode : Nat)
    (p : Proc) : Int × Proc :=
  let q := p.log (Call.open_ path flags mode)
  if r < 0 then (r, q)
  else
    (r, { q with
          fs := setFile q.fs path (openedContent K flags (q.fs path)),
          fds := setFd q.fds r
            (some { path := path, append := flags &&& K.O_APPEND ≠ 0 }) })

/-- The call `dup2(oldfd, newfd)`: on success `newfd` refers to what `oldfd`
refers to; nothing happens when `oldfd` is closed, or equals `newfd`. -/
def sys_dup2 (r : Int) (oldfd newfd : Int) (p : Proc) : Int × Proc :=
  let q := p.log (Call.dup2 oldfd newfd)
  if r < 0 then (r, q)
  else
    match q.fds oldfd with
    | none => (r, q)
    | some f => (r, { q with fds := setFd q.fds newfd (some f) })

/-- The call `close(fd)`: on success `fd` is closed. -/
def sys_close (r : Int) (fd : Int) (p : Proc) : Int × Proc :=
  let q := p.log (Call.close fd)
  if r < 0 then (r, q)
  else (r, { q with fds := setFd q.fds fd none })

/-- The call `execl(path, arg0, ..., NULL)`: `none` when the image was
replaced, else the value returned. The state is the one the new image
inherits. -/
def sys_execl (r : Option Int) (path : String) (args : List String)
    (p : Proc) : Option Int × Proc :=
  (r, p.log (Call.execl path args))

/-! ## The program -/

/-- The path of the log file. -/
def LOG_PATH : String := "/tmp/tma_launch.log"

/-- The path of the script. -/
def SCRIPT_PATH : String := "/Users/john/Projects/test/TMA Project/run_tma.sh"

/-- The function `main` of `launcher.c`. -/
def main (K : Fcntl) (o : Sys) (p0 : Proc) : Outcome × Proc :=
  let (pid, p1) := sys_fork o.fork p0
  if pid < 0 then
    (Outcome.exited 1, p1)
  else if pid > 0 then
    (Outcome.exited 0, p1)
  else
    let (_, p2) := sys_setsid o.setsid p1
    let (log_fd, p3) :=
      sys_open K o.open_ "/tmp/tma_launch.log"
        (K.O_RDWR ||| K.O_CREAT ||| K.O_TRUNC) 0o666 p2
    let p4 :=
      if log_fd > 0 then
        let (_, a) := sys_dup2 o.dup2_out log_fd STDOUT_FILENO p3
        let (_, b) := sys_dup2 o.dup2_err log_fd STDERR_FILENO a
        let (_, c) := sys_close o.close log_fd b
        c
      else p3
    match sys_execl o.execl "/bin/bash"
        ["bash", "/Users/john/Projects/test/TMA Project/run_tma.sh"] p4 with
    | (none, p5) => (Outcome.replaced, p5)
    | (some _, p5) => (Outcome.exited 0, p5)

/-- The calls that the run of `main` from `p` issued, oldest first. -/
def issued (K : Fcntl) (o : Sys) (p : Proc) : List Call :=
  (main K o p).2.calls.drop p.calls.length

/-- The flags `main` passes to `open`. -/
def LOG_FLAGS (K : Fcntl) : Nat := K.O_RDWR ||| K.O_CREAT ||| K.O_TRUNC

/-- The `open` call of `main`. -/
def openCall (K : Fcntl) : Call := Call.open_ LOG_PATH (LOG_FLAGS K) 0o666

/-- The `execl` call of `main`. -/
def execCall : Call := Call.execl "/bin/bash" ["bash", SCRIPT_PATH]

/-- Whether the call is an `open`. -/
def Call.isOpen : Call → Bool
  | Call.open_ _ _ _ => true
  | _ => false

/-- Whether the call is an `execl`. -/
def Call.isExecl : Call → Bool
  | Call.execl _ _ => true
  | _ => false

/-- Whether the call is a `dup2` or a `close`. -/
def Call.isRedirect : Call → Bool
  | Call.dup2 _ _ => true
  | Call.close _ => true
  | _ => false

/-- What the log file is once the redirection refers to it. -/
def logFile : OpenFile := { path := LOG_PATH, append := false }

/-! ## Sample inputs -/

/-- The terminal the invoker hands to the program. -/
def console : OpenFile := { path := "/dev/console", append := false }

/-- The content a previous run left in the log file. -/
def oldLog : List Nat := [111, 108, 100]

/-- A process started with all three standard streams open and a log file
left by a previous run. -/
def proc_std : Proc :=
  { fds := fun k => if k = 0 ∨ k = 1 ∨ k = 2 then some console else none,
    fs := fun k => if k = "/tmp/tma_launch.log" then some oldLog else none,
    argv := ["launcher"], environ := [("HOME", "/Users/john")], calls := [] }

/-- A process whose invoker closed standard input: `open` returns 0. -/
def proc_no_stdin : Proc :=
  { proc_std with fds := fun k => if k = 1 ∨ k = 2 then some console else none }

/-- A process whose invoker closed standard output: `open` returns 1. -/
def proc_no_stdout : Proc :=
  { proc_std with fds := fun k => if k = 0 ∨ k = 2 then some console else none }

/-- The system in the child: every call succeeds, `open` returns `fd`, and
`execl` does as `ex` says. -/
def sys_child (fd : Int) (ex : Option Int) : Sys :=
  { fork := 0, setsid := 4242, open_ := fd, dup2_out := STDOUT_FILENO,
    dup2_err := STDERR_FILENO, close := 0, execl := ex }

/-- The system when `fork` fails. -/
def sys_fork_fails : Sys := { sys_child 3 none with fork := -1 }

/-- The system in the parent: `fork` returns the pid of the child. -/
def sys_parent (pid : Int) (ex : Option Int) : Sys :=
  { sys_child 3 ex with fork := pid }

/-- The system in the parent of a child for which every later call would
fail. -/
def sys_parent_failing : Sys :=
  { fork := 777, setsid := -1, open_ := -1, dup2_out := -1, dup2_err := -1,
    close := -1, execl := some (-1) }

/-! ## The shape of a run -/

theorem main_of_fork_neg (K : Fcntl) (o : Sys) (p : Proc) (h : o.fork < 0) :
    main K o p = (Outcome.exited 1, p.log Call.fork) := by
  simp [main, sys_fork, h]

theorem main_of_fork_pos (K : Fcntl) (o : Sys) (p : Proc) (h : 0 < o.fork) :
    main K o p = (Outcome.exited 0, p.log Call.fork) := by
  have hn : ¬ o.fork < 0 := by omega
  simp [main, sys_fork, h, hn]

/-- The outcome of the child: decided by `execl` alone. -/
theorem main_child_outcome (K : Fcntl) (o : Sys) (p : Proc) (h : o.fork = 0) :
    (main K o p).1 =
      match o.execl with
      | none => Outcome.replaced
      | some _ => Outcome.exited 0 := by
  unfold main
  simp only [sys_fork, h, sys_execl]
  cases o.execl <;> simp

/-- The state of the child at `execl` when no redirection takes place. -/
theorem main_child_plain (K : Fcntl) (o : Sys) (p : Proc) (h : o.fork = 0)
    (hfd : o.open_ ≤ 0) :
    (main K o p).2 =
      ((sys_open K o.open_ LOG_PATH (LOG_FLAGS K) 0o666
          ((p.log Call.fork).log Call.setsid)).2).log execCall := by
  have hn : ¬ 0 < o.open_ := by omega
  unfold main
  simp only [sys_fork, h, sys_execl, sys_setsid]
  cases o.execl <;> simp [sys_open, hn, LOG_PATH, LOG_FLAGS, execCall, SCRIPT_PATH] <;>
    split <;> simp_all

/-- The state of the child at `execl` when the redirection takes place. -/
theorem main_child_redirect (K : Fcntl) (o : Sys) (p : Proc) (h : o.fork = 0)
    (hfd : 0 < o.open_) :
    (main K o p).2 =
      ((sys_close o.close o.open_
        (sys_dup2 o.dup2_err o.open_ STDERR_FILENO
          (sys_dup2 o.dup2_out o.open_ STDOUT_FILENO
            (sys_open K o.open_ LOG_PATH (LOG_FLAGS K) 0o666
              ((p.log Call.fork).log Call.setsid)).2).2).2).2).log execCall := by
  have hn : ¬ o.open_ < 0 := by omega
  unfold main
  simp only [sys_fork, h, sys_execl, sys_setsid]
  cases o.execl <;> simp [sys_open, hn, hfd, LOG_PATH, LOG_FLAGS, execCall, SCRIPT_PATH]

/-! ## The log of calls -/

@[simp] theorem sys_open_calls (K : Fcntl) (r : Int) (path : String)
    (flags mode : Nat) (p : Proc) :
    (sys_open K r path flags mode p).2.calls =
      p.calls ++ [Call.open_ path flags mode] := by
  unfold sys_open
  split <;> rfl

@[simp] theorem sys_dup2_calls (r oldfd newfd : Int) (p : Proc) :
    (sys_dup2 r oldfd newfd p).2.calls = p.calls ++ [Call.dup2 oldfd newfd] := by
  unfold sys_dup2
  split
  · rfl
  · cases hf : p.fds oldfd <;> simp [hf, Proc.log]

@[simp] theorem sys_close_calls (r fd : Int) (p : Proc) :
    (sys_close r fd p).2.calls = p.calls ++ [Call.close fd] := by
  unfold sys_close
  split <;> rfl

@[simp] theorem log_calls (p : Proc) (c : Call) :
    (p.log c).calls = p.calls ++ [c] := rfl

theorem issued_of_fork_neg (K : Fcntl) (o : Sys) (p : Proc) (h : o.fork < 0) :
    issued K o p = [Call.fork] := by
  simp [issued, main_of_fork_neg K o p h]

theorem issued_of_fork_pos (K : Fcntl) (o : Sys) (p : Proc) (h : 0 < o.fork) :
    issued K o p = [Call.fork] := by
  simp [issued, main_of_fork_pos K o p h]

theorem issued_child_plain (K : Fcntl) (o : Sys) (p : Proc) (h : o.fork = 0)
    (hfd : o.open_ ≤ 0) :
    issued K o p = [Call.fork, Call.setsid, openCall K, execCall] := by
  simp [issued, main_child_plain K o p h hfd, openCall]

theorem issued_child_redirect (K : Fcntl) (o : Sys) (p : Proc) (h : o.fork = 0)
    (hfd : 0 < o.open_) :
    issued K o p =
      [Call.fork, Call.setsid, openCall K,
       Call.dup2 o.open_ STDOUT_FILENO, Call.dup2 o.open_ STDERR_FILENO,
       Call.close o.open_, execCall] := by
  simp [issued, main_child_redirect K o p h hfd, openCall]

/-- The log after the run is the log before it followed by the calls issued. -/
theorem calls_eq_append_issued (K : Fcntl) (o : Sys) (p : Proc) :
    (main K o p).2.calls = p.calls ++ issued K o p := by
  rcases lt_trichotomy o.fork 0 with h | h | h
  · rw [issued_of_fork_neg K o p h, main_of_fork_neg K o p h]; rfl
  · rcases le_or_lt o.open_ 0 with hfd | hfd
    · rw [issued_child_plain K o p h hfd, main_child_plain K o p h hfd]
      simp [openCall]
    · rw [issued_child_redirect K o p h hfd, main_child_redirect K o p h hfd]
      simp [openCall]
  · rw [issued_of_fork_pos K o p h, main_of_fork_pos K o p h]; rfl

/-! ## The flags of the log file -/

theorem or_and_cancel (x c : Nat) : (x ||| c) &&& c = c := by
  apply Nat.eq_of_testBit_eq
  intro i
  simp only [Nat.testBit_and, Nat.testBit_or]
  cases x.testBit i <;> cases c.testBit i <;> rfl

theorem log_flags_creat (K : Fcntl) : LOG_FLAGS K &&& K.O_CREAT = K.O_CREAT := by
  unfold LOG_FLAGS
  apply Nat.eq_of_testBit_eq
  intro i
  simp only [Nat.testBit_and, Nat.testBit_or]
  cases K.O_RDWR.testBit i <;> cases K.O_CREAT.testBit i <;>
    cases K.O_TRUNC.testBit i <;> rfl

theorem log_flags_trunc (K : Fcntl) : LOG_FLAGS K &&& K.O_TRUNC = K.O_TRUNC :=
  or_and_cancel (K.O_RDWR ||| K.O_CREAT) K.O_TRUNC

theorem log_flags_accmode (K : Fcntl) (hK : K.wf) :
    LOG_FLAGS K &&& K.O_ACCMODE = K.O_RDWR := by
  obtain ⟨_, _, _, hr, hc, ht, _, _, _⟩ := hK
  unfold LOG_FLAGS
  rw [Nat.and_distrib_right, Nat.and_distrib_right, hr, hc, ht]
  simp

theorem log_flags_no_append (K : Fcntl) (hK : K.wf) :
    LOG_FLAGS K &&& K.O_APPEND = 0 := by
  obtain ⟨_, _, _, _, _, _, hr, hc, ht⟩ := hK
  unfold LOG_FLAGS
  rw [Nat.and_distrib_right, Nat.and_distrib_right, hr, hc, ht]
  simp

theorem log_flags_writable (K : Fcntl) (hK : K.wf) :
    writable K (LOG_FLAGS K) = true := by
  simp [writable, log_flags_accmode K hK]

/-- A successful `open` with the flags of `main` leaves the file empty,
whatever it held and whether or not it existed. -/
theorem openedContent_log_flags (K : Fcntl) (hK : K.wf)
    (old : Option (List Nat)) :
    openedContent K (LOG_FLAGS K) old = some [] := by
  obtain ⟨hc, ht, _⟩ := hK
  cases old with
  | none => simp [openedContent, log_flags_creat, hc]
  | some c =>
    simp [openedContent, log_flags_trunc, ht, log_flags_writable K ⟨hc, ht, ‹_›⟩]

/-! ## Descriptors and files -/

@[simp] theorem log_fds (p : Proc) (c : Call) : (p.log c).fds = p.fds := rfl

@[simp] theorem log_fs (p : Proc) (c : Call) : (p.log c).fs = p.fs := rfl

theorem sys_open_fs_of_fail (K : Fcntl) (r : Int) (path : String)
    (flags mode : Nat) (p : Proc) (h : r < 0) :
    (sys_open K r path flags mode p).2.fs = p.fs := by
  simp [sys_open, h]

theorem sys_open_fds_of_fail (K : Fcntl) (r : Int) (path : String)
    (flags mode : Nat) (p : Proc) (h : r < 0) :
    (sys_open K r path flags mode p).2.fds = p.fds := by
  simp [sys_open, h]

theorem sys_open_fs_of_ok (K : Fcntl) (r : Int) (path : String)
    (flags mode : Nat) (p : Proc) (h : 0 ≤ r) :
    (sys_open K r path flags mode p).2.fs =
      setFile p.fs path (openedContent K flags (p.fs path)) := by
  have hn : ¬ r < 0 := by omega
  simp [sys_open, hn]

theorem sys_open_fds_of_ok (K : Fcntl) (r : Int) (path : String)
    (flags mode : Nat) (p : Proc) (h : 0 ≤ r) :
    (sys_open K r path flags mode p).2.fds =
      setFd p.fds r (some { path := path, append := flags &&& K.O_APPEND ≠ 0 }) := by
  have hn : ¬ r < 0 := by omega
  simp [sys_open, hn]

@[simp] theorem sys_dup2_fs (r oldfd newfd : Int) (p : Proc) :
    (sys_dup2 r oldfd newfd p).2.fs = p.fs := by
  unfold sys_dup2
  split
  · rfl
  · cases hf : p.fds oldfd <;> simp [hf, Proc.log]

@[simp] theorem sys_close_fs (r fd : Int) (p : Proc) :
    (sys_close r fd p).2.fs = p.fs := by
  unfold sys_close
  split <;> rfl

theorem sys_dup2_fds_of_ok (r oldfd newfd : Int) (p : Proc) (f : OpenFile)
    (h : 0 ≤ r) (hf : p.fds oldfd = some f) :
    (sys_dup2 r oldfd newfd p).2.fds = setFd p.fds newfd (some f) := by
  have hn : ¬ r < 0 := by omega
  simp [sys_dup2, hn, hf, Proc.log]

theorem sys_close_fds_of_ok (r fd : Int) (p : Proc) (h : 0 ≤ r) :
    (sys_close r fd p).2.fds = setFd p.fds fd none := by
  have hn : ¬ r < 0 := by omega
  simp [sys_close, hn, Proc.log]

/-- The file system at `execl` in the child: only `open` acted on it. -/
theorem main_child_fs (K : Fcntl) (o : Sys) (p : Proc) (h : o.fork = 0) :
    (main K o p).2.fs =
      (sys_open K o.open_ LOG_PATH (LOG_FLAGS K) 0o666 p).2.fs := by
  rcases le_or_lt o.open_ 0 with hfd | hfd
  · rw [main_child_plain K o p h hfd]
    unfold sys_open
    split <;> simp
  · rw [main_child_redirect K o p h hfd]
    unfold sys_open
    split <;> simp

/-! ## Exit status -/

/-- The body of `main` returns exactly when the process is not the child, or
is the child and `execl` returned. -/
theorem main_returns_iff (K : Fcntl) (o : Sys) (p : Proc) :
    (∃ s, (main K o p).1 = Outcome.exited s) ↔ (o.fork ≠ 0 ∨ o.execl ≠ none) := by
  rcases lt_trichotomy o.fork 0 with h | h | h
  · rw [main_of_fork_neg K o p h]
    exact ⟨fun _ => Or.inl (by omega), fun _ => ⟨1, rfl⟩⟩
  · rw [main_child_outcome K o p h]
    cases he : o.execl <;> simp [h]
  · rw [main_of_fork_pos K o p h]
    exact ⟨fun _ => Or.inl (by omega), fun _ => ⟨0, rfl⟩⟩

/-- C1: whenever `main` returns, with status `s`, the status is 1 exactly when
`fork` returned a negative value, and 0 exactly on the other returning paths
(`fork` returned a positive pid, or `fork` returned 0 and `execl` returned);
no other status is produced. The values returned by `setsid`, `open`, `dup2`
and `close` are arbitrary. -/
theorem exit_status_one_iff_fork_failed (K : Fcntl) (o : Sys) (p : Proc)
    (s : Int) (h : (main K o p).1 = Outcome.exited s) :
    (s = 1 ↔ o.fork < 0) ∧
    (s = 0 ↔ (0 < o.fork ∨ (o.fork = 0 ∧ o.execl ≠ none))) ∧
    (s = 0 ∨ s = 1) := by
  rcases lt_trichotomy o.fork 0 with hf | hf | hf
  · rw [main_of_fork_neg K o p hf] at h
    have hs : s = 1 := by injection h with h; exact h.symm
    subst hs
    refine ⟨⟨fun _ => hf, fun _ => rfl⟩, ⟨fun h0 => absurd h0 (by decide), ?_⟩, Or.inr rfl⟩
    rintro (h1 | ⟨h1, _⟩) <;> omega
  · rw [main_child_outcome K o p hf] at h
    cases he : o.execl with
    | none => rw [he] at h; cases h
    | some r =>
      rw [he] at h
      have hs : s = 0 := by injection h with h; exact h.symm
      subst hs
      refine ⟨⟨fun h0 => absurd h0 (by decide), fun h1 => by omega⟩,
        ⟨fun _ => Or.inr ⟨hf, by simp⟩, fun _ => rfl⟩, Or.inl rfl⟩
  · rw [main_of_fork_pos K o p hf] at h
    have hs : s = 0 := by injection h with h; exact h.symm
    subst hs
    refine ⟨⟨fun h0 => absurd h0 (by decide), fun h1 => by omega⟩,
      ⟨fun _ => Or.inl hf, fun _ => rfl⟩, Or.inl rfl⟩

theorem exit_status_one_iff_fork_failed_witness :
    (main fcntl_darwin sys_fork_fails proc_std).1 = Outcome.exited 1 ∧
    (((1 : Int) = 1 ↔ sys_fork_fails.fork < 0) ∧
     ((1 : Int) = 0 ↔ (0 < sys_fork_fails.fork ∨
        (sys_fork_fails.fork = 0 ∧ sys_fork_fails.execl ≠ none))) ∧
     ((1 : Int) = 0 ∨ (1 : Int) = 1)) :=
  ⟨by decide,
   exit_status_one_iff_fork_failed fcntl_darwin sys_fork_fails proc_std 1 (by decide)⟩

/-- C2: when `fork` fails, `main` returns the non-zero status 1 and `fork` is
the only call it made: nothing follows it in the log, and the descriptors and
the file system (the log file included) are as they were. -/
theorem fork_failure_does_nothing (K : Fcntl) (o : Sys) (p : Proc)
    (h : o.fork < 0) :
    (∃ s, (main K o p).1 = Outcome.exited s ∧ s ≠ 0) ∧
    issued K o p = [Call.fork] ∧
    (issued K o p).tail = [] ∧
    (main K o p).2.fds = p.fds ∧
    (main K o p).2.fs = p.fs := by
  refine ⟨⟨1, ?_, by decide⟩, issued_of_fork_neg K o p h, ?_, ?_, ?_⟩
  · rw [main_of_fork_neg K o p h]
  · rw [issued_of_fork_neg K o p h]; rfl
  · rw [main_of_fork_neg K o p h]; rfl
  · rw [main_of_fork_neg K o p h]; rfl

theorem fork_failure_does_nothing_witness :
    sys_fork_fails.fork < 0 ∧
    ((∃ s, (main fcntl_darwin sys_fork_fails proc_std).1 = Outcome.exited s ∧ s ≠ 0) ∧
     issued fcntl_darwin sys_fork_fails proc_std = [Call.fork] ∧
     (issued fcntl_darwin sys_fork_fails proc_std).tail = [] ∧
     (main fcntl_darwin sys_fork_fails proc_std).2.fds = proc_std.fds ∧
     (main fcntl_darwin sys_fork_fails proc_std).2.fs = proc_std.fs) :=
  ⟨by decide,
   fork_failure_does_nothing fcntl_darwin sys_fork_fails proc_std (by decide)⟩

/-- C3: in the originating process (`fork` returned a positive pid) `main`
returns 0 with `fork` as its only call, leaving descriptors and files as they
were; any two such runs from the same state end alike, whatever `setsid`,
`open`, `dup2`, `close` or `execl` would have returned. -/
theorem parent_exits_zero_at_once (K : Fcntl) (o o2 : Sys) (p : Proc)
    (h : 0 < o.fork) (h2 : 0 < o2.fork) :
    (main K o p).1 = Outcome.exited 0 ∧
    issued K o p = [Call.fork] ∧
    (issued K o p).tail = [] ∧
    (main K o p).2.fds = p.fds ∧
    (main K o p).2.fs = p.fs ∧
    (main K o2 p).1 = (main K o p).1 ∧
    issued K o2 p = issued K o p ∧
    main K o2 p = main K o p := by
  refine ⟨?_, issued_of_fork_pos K o p h, ?_, ?_, ?_, ?_, ?_, ?_⟩
  · rw [main_of_fork_pos K o p h]
  · rw [issued_of_fork_pos K o p h]; rfl
  · rw [main_of_fork_pos K o p h]; rfl
  · rw [main_of_fork_pos K o p h]; rfl
  · rw [main_of_fork_pos K o p h, main_of_fork_pos K o2 p h2]
  · rw [issued_of_fork_pos K o p h, issued_of_fork_pos K o2 p h2]
  · rw [main_of_fork_pos K o p h, main_of_fork_pos K o2 p h2]

theorem parent_exits_zero_at_once_witness :
    0 < (sys_parent 501 none).fork ∧ 0 < sys_parent_failing.fork ∧
    ((main fcntl_darwin (sys_parent 501 none) proc_std).1 = Outcome.exited 0 ∧
     issued fcntl_darwin (sys_parent 501 none) proc_std = [Call.fork] ∧
     (issued fcntl_darwin (sys_parent 501 none) proc_std).tail = [] ∧
     (main fcntl_darwin (sys_parent 501 none) proc_std).2.fds = proc_std.fds ∧
     (main fcntl_darwin (sys_parent 501 none) proc_std).2.fs = proc_std.fs ∧
     (main fcntl_darwin sys_parent_failing proc_std).1 =
       (main fcntl_darwin (sys_parent 501 none) proc_std).1 ∧
     issued fcntl_darwin sys_parent_failing proc_std =
       issued fcntl_darwin (sys_parent 501 none) proc_std ∧
     main fcntl_darwin sys_parent_failing proc_std =
       main fcntl_darwin (sys_parent 501 none) proc_std) :=
  ⟨by decide, by decide,
   parent_exits_zero_at_once fcntl_darwin (sys_parent 501 none)
     sys_parent_failing proc_std (by decide) (by decide)⟩

/-- C4, as stated, fails: in the child (`fork` returned 0), with the log file
opened on descriptor 3 and `execl` failing with -1, the script is not started
and `main` still returns 0, so neither alternative of the claim holds. -/
theorem child_exec_failure_exits_zero :
    (sys_child 3 (some (-1))).fork = 0 ∧
    (sys_child 3 (some (-1))).execl = some (-1) ∧
    (main fcntl_darwin (sys_child 3 (some (-1))) proc_std).1 = Outcome.exited 0 ∧
    ¬ ((main fcntl_darwin (sys_child 3 (some (-1))) proc_std).1 = Outcome.replaced ∨
       ∃ s, s ≠ 0 ∧
         (main fcntl_darwin (sys_child 3 (some (-1))) proc_std).1 = Outcome.exited s) := by
  have h : (main fcntl_darwin (sys_child 3 (some (-1))) proc_std).1 = Outcome.exited 0 := by
    decide
  refine ⟨rfl, rfl, h, ?_⟩
  rw [h]
  rintro (h1 | ⟨s, hs, h1⟩)
  · cases h1
  · injection h1 with h1
    exact hs h1.symm

/-- C4, amended: in the child (`fork` returned 0) `execl` is called, and
either it succeeds and does not return, so that the process runs the script,
or it fails and returns, and `main` then returns status 0. -/
theorem child_runs_script_or_exits_zero (K : Fcntl) (o : Sys) (p : Proc)
    (h : o.fork = 0) :
    execCall ∈ issued K o p ∧
    (((main K o p).1 = Outcome.replaced ∧ o.execl = none) ∨
     ((main K o p).1 = Outcome.exited 0 ∧ ∃ r, o.execl = some r)) := by
  refine ⟨?_, ?_⟩
  · rcases le_or_lt o.open_ 0 with hfd | hfd
    · rw [issued_child_plain K o p h hfd]; simp
    · rw [issued_child_redirect K o p h hfd]; simp
  · rw [main_child_outcome K o p h]
    cases he : o.execl with
    | none => exact Or.inl ⟨rfl, rfl⟩
    | some r => exact Or.inr ⟨rfl, r, rfl⟩

theorem child_runs_script_or_exits_zero_witness :
    (sys_child 3 (some (-1))).fork = 0 ∧
    (execCall ∈ issued fcntl_darwin (sys_child 3 (some (-1))) proc_std ∧
     (((main fcntl_darwin (sys_child 3 (some (-1))) proc_std).1 = Outcome.replaced ∧
        (sys_child 3 (some (-1))).execl = none) ∨
      ((main fcntl_darwin (sys_child 3 (some (-1))) proc_std).1 = Outcome.exited 0 ∧
        ∃ r, (sys_child 3 (some (-1))).execl = some r))) :=
  ⟨by decide,
   child_runs_script_or_exits_zero fcntl_darwin (sys_child 3 (some (-1))) proc_std
     (by decide)⟩

/-- C5: in the child (`fork` returned 0), when `execl` is called and returns
(with any value `r`), `main` falls through and returns 0, for every value
returned by `setsid`, `open`, `dup2` and `close`, redirected or not. -/
theorem exec_failure_exits_zero (K : Fcntl) (o : Sys) (p : Proc) (r : Int)
    (h : o.fork = 0) (he : o.execl = some r) :
    (main K o p).1 = Outcome.exited 0 ∧
    (issued K o p).getLast? = some execCall := by
  refine ⟨?_, ?_⟩
  · rw [main_child_outcome K o p h, he]
  · rcases le_or_lt o.open_ 0 with hfd | hfd
    · rw [issued_child_plain K o p h hfd]; rfl
    · rw [issued_child_redirect K o p h hfd]; rfl

theorem exec_failure_exits_zero_witness :
    (sys_child (-1) (some (-1))).fork = 0 ∧
    (sys_child (-1) (some (-1))).execl = some (-1) ∧
    ((main fcntl_darwin (sys_child (-1) (some (-1))) proc_std).1 = Outcome.exited 0 ∧
     (issued fcntl_darwin (sys_child (-1) (some (-1))) proc_std).getLast? =
       some execCall) :=
  ⟨by decide, by decide,
   exec_failure_exits_zero fcntl_darwin (sys_child (-1) (some (-1))) proc_std (-1)
     (by decide) (by decide)⟩

/-! ## Redirection -/

/-- When `open` returns a descriptor above 2 and `dup2` and `close` succeed,
descriptors 1 and 2 refer to the log file at `execl` and the descriptor that
`open` returned is closed. -/
theorem redirect_of_fd_gt_two (K : Fcntl) (hK : K.wf) (o : Sys) (p : Proc)
    (h : o.fork = 0) (hfd : 2 < o.open_) (h1 : 0 ≤ o.dup2_out)
    (h2 : 0 ≤ o.dup2_err) (hc : 0 ≤ o.close) :
    (main K o p).2.fds STDOUT_FILENO = some logFile ∧
    (main K o p).2.fds STDERR_FILENO = some logFile ∧
    (main K o p).2.fds o.open_ = none := by
  have hpos : 0 < o.open_ := by omega
  have hne1 : ¬ o.open_ < 0 := by omega
  have hn1 : ¬ o.dup2_out < 0 := by omega
  have hn2 : ¬ o.dup2_err < 0 := by omega
  have hn3 : ¬ o.close < 0 := by omega
  have ha : LOG_FLAGS K &&& K.O_APPEND = 0 := log_flags_no_append K hK
  have e1 : (1 : Int) ≠ o.open_ := by omega
  have e2 : (2 : Int) ≠ o.open_ := by omega
  rw [main_child_redirect K o p h hpos]
  simp [sys_close, sys_dup2, sys_open, Proc.log, setFd, hne1, hn1, hn2, hn3, ha,
    STDOUT_FILENO, STDERR_FILENO, logFile, e1, e2]

theorem redirect_of_fd_gt_two_example :
    (main fcntl_darwin (sys_child 3 none) proc_std).2.fds STDOUT_FILENO = some logFile ∧
    (main fcntl_darwin (sys_child 3 none) proc_std).2.fds STDERR_FILENO = some logFile ∧
    (main fcntl_darwin (sys_child 3 none) proc_std).2.fds (sys_child 3 none).open_ = none :=
  redirect_of_fd_gt_two fcntl_darwin (by decide) (sys_child 3 none) proc_std
    (by decide) (by decide) (by decide) (by decide) (by decide)

/-- C6 at `open` returning 0: in the child of an invoker that closed standard
input the log file is opened on descriptor 0, yet `main` calls neither `dup2`
nor `close` and goes on to `execl` with descriptors 1 and 2 still on the
console. -/
theorem open_returning_zero_skips_redirect :
    (sys_child 0 none).fork = 0 ∧ 0 ≤ (sys_child 0 none).open_ ∧
    proc_no_stdin.fds 0 = none ∧
    issued fcntl_darwin (sys_child 0 none) proc_no_stdin =
      [Call.fork, Call.setsid, openCall fcntl_darwin, execCall] ∧
    (main fcntl_darwin (sys_child 0 none) proc_no_stdin).2.fds 0 = some logFile ∧
    (main fcntl_darwin (sys_child 0 none) proc_no_stdin).2.fds STDOUT_FILENO =
      some console ∧
    (main fcntl_darwin (sys_child 0 none) proc_no_stdin).2.fds STDERR_FILENO =
      some console := by
  decide

/-- C7 at `open` returning 1: in the child of an invoker that closed standard
output the log file is opened on descriptor 1; `dup2(1, 1)` changes nothing,
`dup2(1, 2)` puts the log file on descriptor 2, and `close(1)` then closes
standard output, which is closed when `execl` is called. -/
theorem open_returning_one_closes_stdout :
    (sys_child 1 none).fork = 0 ∧ 0 ≤ (sys_child 1 none).open_ ∧
    proc_no_stdout.fds 1 = none ∧
    issued fcntl_darwin (sys_child 1 none) proc_no_stdout =
      [Call.fork, Call.setsid, openCall fcntl_darwin,
       Call.dup2 1 STDOUT_FILENO, Call.dup2 1 STDERR_FILENO, Call.close 1,
       execCall] ∧
    (main fcntl_darwin (sys_child 1 none) proc_no_stdout).2.fds STDOUT_FILENO = none ∧
    (main fcntl_darwin (sys_child 1 none) proc_no_stdout).2.fds STDERR_FILENO =
      some logFile := by
  decide

/-- C8: in the child, when `open` fails (returns a negative value) `main`
calls neither `dup2` nor `close`, leaves descriptors 1 and 2, the whole table
and the file system as they were, and calls `execl` as its next and last call;
it ends in the script when `execl` succeeds and with status 0 when `execl`
returns. -/
theorem open_failure_is_ignored (K : Fcntl) (o : Sys) (p : Proc)
    (h : o.fork = 0) (hf : o.open_ < 0) :
    issued K o p = [Call.fork, Call.setsid, openCall K, execCall] ∧
    (∀ c ∈ issued K o p, c.isRedirect = false) ∧
    (main K o p).2.fds STDOUT_FILENO = p.fds STDOUT_FILENO ∧
    (main K o p).2.fds STDERR_FILENO = p.fds STDERR_FILENO ∧
    (main K o p).2.fds = p.fds ∧
    (main K o p).2.fs = p.fs ∧
    (o.execl = none → (main K o p).1 = Outcome.replaced) ∧
    (∀ r, o.execl = some r → (main K o p).1 = Outcome.exited 0) ∧
    (∀ s, (main K o p).1 = Outcome.exited s → s = 0) := by
  have hle : o.open_ ≤ 0 := by omega
  have hfds : (main K o p).2.fds = p.fds := by
    rw [main_child_plain K o p h hle]
    simp [sys_open, hf]
  have hfs : (main K o p).2.fs = p.fs := by
    rw [main_child_fs K o p h, sys_open_fs_of_fail K _ _ _ _ _ hf]
  refine ⟨issued_child_plain K o p h hle, ?_, by rw [hfds], by rw [hfds], hfds, hfs,
    ?_, ?_, ?_⟩
  · rw [issued_child_plain K o p h hle]
    intro c hc
    simp only [List.mem_cons, List.mem_singleton, List.not_mem_nil, or_false] at hc
    rcases hc with rfl | rfl | rfl | rfl <;> rfl
  · intro he
    rw [main_child_outcome K o p h, he]
  · intro r he
    rw [main_child_outcome K o p h, he]
  · intro s hs
    rw [main_child_outcome K o p h] at hs
    cases he : o.execl with
    | none => rw [he] at hs; cases hs
    | some r =>
      rw [he] at hs
      injection hs with hs
      exact hs.symm

theorem open_failure_is_ignored_witness :
    (sys_child (-1) (some (-1))).fork = 0 ∧ (sys_child (-1) (some (-1))).open_ < 0 ∧
    (issued fcntl_darwin (sys_child (-1) (some (-1))) proc_std =
       [Call.fork, Call.setsid, openCall fcntl_darwin, execCall] ∧
     (∀ c ∈ issued fcntl_darwin (sys_child (-1) (some (-1))) proc_std,
        c.isRedirect = false) ∧
     (main fcntl_darwin (sys_child (-1) (some (-1))) proc_std).2.fds STDOUT_FILENO =
       proc_std.fds STDOUT_FILENO ∧
     (main fcntl_darwin (sys_child (-1) (some (-1))) proc_std).2.fds STDERR_FILENO =
       proc_std.fds STDERR_FILENO ∧
     (main fcntl_darwin (sys_child (-1) (some (-1))) proc_std).2.fds = proc_std.fds ∧
     (main fcntl_darwin (sys_child (-1) (some (-1))) proc_std).2.fs = proc_std.fs ∧
     ((sys_child (-1) (some (-1))).execl = none →
        (main fcntl_darwin (sys_child (-1) (some (-1))) proc_std).1 = Outcome.replaced) ∧
     (∀ r, (sys_child (-1) (some (-1))).execl = some r →
        (main fcntl_darwin (sys_child (-1) (some (-1))) proc_std).1 = Outcome.exited 0) ∧
     (∀ s, (main fcntl_darwin (sys_child (-1) (some (-1))) proc_std).1 = Outcome.exited s →
        s = 0)) :=
  ⟨by decide, by decide,
   open_failure_is_ignored fcntl_darwin (sys_child (-1) (some (-1))) proc_std
     (by decide) (by decide)⟩

/-! ## The log file -/

/-- C9: the child opens exactly one file, `"/tmp/tma_launch.log"`, with flags
`O_RDWR | O_CREAT | O_TRUNC` and mode 0666; these flags ask for creation,
truncation and read-write access and not for appending; and when that `open`
succeeds the file exists and is empty when `execl` is called, whatever it
held before and whether or not it existed, no other file being touched. -/
theorem log_file_created_or_truncated (K : Fcntl) (hK : K.wf) (o : Sys)
    (p : Proc) (h : o.fork = 0) (hs : 0 ≤ o.open_) :
    (issued K o p).filter Call.isOpen =
      [Call.open_ "/tmp/tma_launch.log" (K.O_RDWR ||| K.O_CREAT ||| K.O_TRUNC) 0o666] ∧
    (K.O_RDWR ||| K.O_CREAT ||| K.O_TRUNC) &&& K.O_CREAT ≠ 0 ∧
    (K.O_RDWR ||| K.O_CREAT ||| K.O_TRUNC) &&& K.O_TRUNC ≠ 0 ∧
    (K.O_RDWR ||| K.O_CREAT ||| K.O_TRUNC) &&& K.O_ACCMODE = K.O_RDWR ∧
    (K.O_RDWR ||| K.O_CREAT ||| K.O_TRUNC) &&& K.O_APPEND = 0 ∧
    (main K o p).2.fs "/tmp/tma_launch.log" = some [] ∧
    (∀ path, path ≠ "/tmp/tma_launch.log" → (main K o p).2.fs path = p.fs path) := by
  have hc := log_flags_creat K
  have ht := log_flags_trunc K
  unfold LOG_FLAGS at hc ht
  refine ⟨?_, ?_, ?_, log_flags_accmode K hK, log_flags_no_append K hK, ?_, ?_⟩
  · rcases le_or_lt o.open_ 0 with hfd | hfd
    · rw [issued_child_plain K o p h hfd]; rfl
    · rw [issued_child_redirect K o p h hfd]; rfl
  · rw [hc]; exact hK.1
  · rw [ht]; exact hK.2.1
  · rw [main_child_fs K o p h, sys_open_fs_of_ok K _ _ _ _ _ hs,
      openedContent_log_flags K hK]
    simp [setFile, LOG_PATH]
  · intro path hp
    rw [main_child_fs K o p h, sys_open_fs_of_ok K _ _ _ _ _ hs]
    simp [setFile, LOG_PATH, hp]

theorem log_file_created_or_truncated_witness :
    fcntl_darwin.wf ∧ (sys_child 3 none).fork = 0 ∧ 0 ≤ (sys_child 3 none).open_ ∧
    proc_std.fs "/tmp/tma_launch.log" = some oldLog ∧
    ((issued fcntl_darwin (sys_child 3 none) proc_std).filter Call.isOpen =
       [Call.open_ "/tmp/tma_launch.log"
         (fcntl_darwin.O_RDWR ||| fcntl_darwin.O_CREAT ||| fcntl_darwin.O_TRUNC) 0o666] ∧
     (fcntl_darwin.O_RDWR ||| fcntl_darwin.O_CREAT ||| fcntl_darwin.O_TRUNC) &&&
       fcntl_darwin.O_CREAT ≠ 0 ∧
     (fcntl_darwin.O_RDWR ||| fcntl_darwin.O_CREAT ||| fcntl_darwin.O_TRUNC) &&&
       fcntl_darwin.O_TRUNC ≠ 0 ∧
     (fcntl_darwin.O_RDWR ||| fcntl_darwin.O_CREAT ||| fcntl_darwin.O_TRUNC) &&&
       fcntl_darwin.O_ACCMODE = fcntl_darwin.O_RDWR ∧
     (fcntl_darwin.O_RDWR ||| fcntl_darwin.O_CREAT ||| fcntl_darwin.O_TRUNC) &&&
       fcntl_darwin.O_APPEND = 0 ∧
     (main fcntl_darwin (sys_child 3 none) proc_std).2.fs "/tmp/tma_launch.log" =
       some [] ∧
     (∀ path, path ≠ "/tmp/tma_launch.log" →
        (main fcntl_darwin (sys_child 3 none) proc_std).2.fs path = proc_std.fs path)) :=
  ⟨by decide, by decide, by decide, by decide,
   log_file_created_or_truncated fcntl_darwin (by decide) (sys_child 3 none) proc_std
     (by decide) (by decide)⟩

/-! ## The skeleton of the child -/

/-- C10: in the child (`fork` returned 0), for every value returned by
`setsid` and by `open`, the calls after `fork` are `setsid`, then `open`, then
only `dup2` and `close` calls, then `execl("/bin/bash", "bash", script, NULL)`
with the one fixed script path: `setsid` is called once, first, and `execl`
once, last. A run with another value returned by `setsid` ends in the same
outcome and state, and the `execl` call is the same for every run of the
child, whatever the system returns and whatever the command line and the
environment are. -/
theorem child_call_skeleton (K : Fcntl) (o : Sys) (p : Proc) (h : o.fork = 0) :
    (∃ mid, issued K o p =
        [Call.fork, Call.setsid, openCall K] ++ mid ++
          [Call.execl "/bin/bash"
            ["bash", "/Users/john/Projects/test/TMA Project/run_tma.sh"]] ∧
        ∀ c ∈ mid, c.isRedirect = true) ∧
    (issued K o p).count Call.setsid = 1 ∧
    (issued K o p).filter Call.isExecl =
      [Call.execl "/bin/bash"
        ["bash", "/Users/john/Projects/test/TMA Project/run_tma.sh"]] ∧
    (∀ v, main K { o with setsid := v } p = main K o p) ∧
    (∀ v, issued K { o with setsid := v } p = issued K o p) ∧
    (∀ (K2 : Fcntl) (o2 : Sys) (p2 : Proc), o2.fork = 0 →
      (issued K2 o2 p2).filter Call.isExecl = (issued K o p).filter Call.isExecl) := by
  have hex : ∀ (K2 : Fcntl) (o2 : Sys) (p2 : Proc), o2.fork = 0 →
      (issued K2 o2 p2).filter Call.isExecl = [execCall] := by
    intro K2 o2 p2 h2
    rcases le_or_lt o2.open_ 0 with hfd | hfd
    · rw [issued_child_plain K2 o2 p2 h2 hfd]; rfl
    · rw [issued_child_redirect K2 o2 p2 h2 hfd]; rfl
  have hset : ∀ v, main K { o with setsid := v } p = main K o p := fun _ => rfl
  refine ⟨?_, ?_, hex K o p h, hset, ?_, ?_⟩
  · rcases le_or_lt o.open_ 0 with hfd | hfd
    · refine ⟨[], ?_, ?_⟩
      · rw [issued_child_plain K o p h hfd]; rfl
      · intro c hc; cases hc
    · refine ⟨[Call.dup2 o.open_ STDOUT_FILENO, Call.dup2 o.open_ STDERR_FILENO,
        Call.close o.open_], ?_, ?_⟩
      · rw [issued_child_redirect K o p h hfd]; rfl
      · intro c hc
        simp only [List.mem_cons, List.mem_singleton, List.not_mem_nil, or_false] at hc
        rcases hc with rfl | rfl | rfl <;> rfl
  · rcases le_or_lt o.open_ 0 with hfd | hfd
    · rw [issued_child_plain K o p h hfd]; simp [openCall, execCall]
    · rw [issued_child_redirect K o p h hfd]; simp [openCall, execCall]
  · intro v
    unfold issued
    rw [hset v]
  · intro K2 o2 p2 h2
    rw [hex K2 o2 p2 h2, hex K o p h]

theorem child_call_skeleton_witness :
    (sys_child 3 none).fork = 0 ∧
    ((∃ mid, issued fcntl_darwin (sys_child 3 none) proc_std =
        [Call.fork, Call.setsid, openCall fcntl_darwin] ++ mid ++
          [Call.execl "/bin/bash"
            ["bash", "/Users/john/Projects/test/TMA Project/run_tma.sh"]] ∧
        ∀ c ∈ mid, c.isRedirect = true) ∧
     (issued fcntl_darwin (sys_child 3 none) proc_std).count Call.setsid = 1 ∧
     (issued fcntl_darwin (sys_child 3 none) proc_std).filter Call.isExecl =
       [Call.execl "/bin/bash"
         ["bash", "/Users/john/Projects/test/TMA Project/run_tma.sh"]] ∧
     (∀ v, main fcntl_darwin { sys_child 3 none with setsid := v } proc_std =
        main fcntl_darwin (sys_child 3 none) proc_std) ∧
     (∀ v, issued fcntl_darwin { sys_child 3 none with setsid := v } proc_std =
        issued fcntl_darwin (sys_child 3 none) proc_std) ∧
     (∀ (K2 : Fcntl) (o2 : Sys) (p2 : Proc), o2.fork = 0 →
       (issued K2 o2 p2).filter Call.isExecl =
         (issued fcntl_darwin (sys_child 3 none) proc_std).filter Call.isExecl)) :=
  ⟨by decide, child_call_skeleton fcntl_darwin (sys_child 3 none) proc_std (by decide)⟩

end Launcher
